import Mathlib

/-!
Verification of `serve_simple_llm.py`: a three-stage translation pipeline
(prompt template | chat model | string output parser) exposed over HTTP by
`add_routes`.  The repository code fixes the templates, the model
configuration and the composition order; the generic pipeline semantics
(`invoke`, `stream`, `batch`, request validation, schema description) are
library behaviour and are modelled from the specification.
-/

namespace ServeSimpleLLM

/-- A JSON-like value appearing in a request body / pipeline input mapping. -/
inductive PyVal where
  | str (s : String)
  | int (n : Int)
  | null
  deriving DecidableEq, Repr

/-- Dictionary lookup on an association-list model of a Python dict. -/
def lookupVar : List (String × PyVal) → String → Option PyVal
  | [], _ => none
  | (k, v) :: rest, name => if k = name then some v else lookupVar rest name

/-- Python `str()` of a value, as used by `str.format` when substituting. -/
def pyStr : PyVal → String
  | .str s => s
  | .int n => toString n
  | .null => "None"

/-- Errors a pipeline stage can raise (spec section 7 taxonomy; the
`TemplateError` case models the `KeyError` that Python `str.format` raises
on a missing variable). -/
inductive ChainError where
  | templateError (name : String)
  | remoteServiceError (msg : String)
  | timeoutError (msg : String)
  | parseError (msg : String)
  deriving DecidableEq, Repr

/-- Scanner for Python `str.format`-style substitution, structural on the
character list.  The `Option String` argument is `some name` while inside a
`\x7b...\x7d` field, `none` outside; the `String` argument accumulates the
current literal chunk.  The result is the ordered list of output segments
(literal chunks and substituted values). -/
def pyFormatAux (vars : List (String × PyVal)) :
    List Char → Option String → String → Except ChainError (List String)
  | [], none, cur => .ok [cur]
  | [], some _, _ => .error (.templateError "unterminated field")
  | c :: rest, none, cur =>
      if c = '\x7b' then pyFormatAux vars rest (some "") cur
      else pyFormatAux vars rest none (cur.push c)
  | c :: rest, some name, cur =>
      if c = '\x7d' then
        match lookupVar vars name with
        | none => .error (.templateError name)
        | some v => (pyFormatAux vars rest none "").map (fun segs => cur :: pyStr v :: segs)
      else pyFormatAux vars rest (some (name.push c)) cur

/-- Format a template string against an input mapping (Python `str.format`). -/
def formatStr (tmpl : String) (vars : List (String × PyVal)) : Except ChainError String :=
  (pyFormatAux vars tmpl.data none "").map String.join

/-- A role-tagged chat message of the rendered message sequence. -/
structure Message where
  role : String
  content : String
  deriving DecidableEq, Repr

/-- `system_template` from the source, line 8. -/
def system_template : String :=
  "You are an assistant that translates text. Translate the user text into {language}."

/-- The `(role, template)` pairs passed to `ChatPromptTemplate.from_messages`,
source lines 9-11. -/
def prompt_template_messages : List (String × String) :=
  [("system", system_template), ("user", "{text}")]

/-- Render every `(role, template)` pair of a chat prompt template against the
input mapping, failing on the first template error. -/
def renderMessages : List (String × String) → List (String × PyVal) → Except ChainError (List Message)
  | [], _ => .ok []
  | (role, tmpl) :: rest, input =>
      match formatStr tmpl input with
      | .error e => .error e
      | .ok content =>
          match renderMessages rest input with
          | .error e => .error e
          | .ok msgs => .ok (Message.mk role content :: msgs)

/-- Stage 1, the prompt renderer: `prompt_template.invoke(input)`. -/
def renderPrompt (input : List (String × PyVal)) : Except ChainError (List Message) :=
  renderMessages prompt_template_messages input

/-- The structured response returned by the chat model (a LangChain
`AIMessage`); its `content` may in general be non-textual. -/
structure AIMessage where
  content : PyVal
  deriving DecidableEq, Repr

/-- Modelled from the spec: the Model Invoker in synchronous mode is an
abstract function from a rendered message sequence to a model response or a
stage error (`RemoteServiceError` / `TimeoutError`); the network call itself
is external. -/
def ModelFn : Type := List Message → Except ChainError AIMessage

/-- Modelled from the spec: the Model Invoker in streaming mode returns the
finite ordered sequence of response chunks that arrived from the network. -/
def StreamFn : Type := List Message → Except ChainError (List AIMessage)

/-- Stage 3, `StrOutputParser` (source line 25).  Modelled from the spec:
extracts the textual content of a model response and fails with a
`ParseError` when the response lacks an extractable textual field. -/
def parser (m : AIMessage) : Except ChainError String :=
  match m.content with
  | .str s => .ok s
  | _ => .error (.parseError "response lacks textual content")

/-- A pipeline stage with error propagation, as composed by the `|` operator. -/
def Runnable (α β : Type) : Type := α → Except ChainError β

/-- Modelled from the spec: sequencing of two stages by the `|` operator —
the first stage's output feeds the second stage's input, and a failure
aborts the remaining stage. -/
def rseq {α β γ : Type} (f : Runnable α β) (g : Runnable β γ) : Runnable α γ :=
  fun a => (f a).bind g

/-- `chain = prompt_template | model | parser` (source line 27), with the
remote model call abstracted as a parameter. -/
def chain (m : ModelFn) : Runnable (List (String × PyVal)) String :=
  rseq (rseq renderPrompt m) parser

/-- Modelled from the spec: `invoke` runs the composed chain once,
synchronously. -/
def chain_invoke (m : ModelFn) (input : List (String × PyVal)) : Except ChainError String :=
  chain m input

/-- Pass each response chunk through the parser in arrival order, stopping
at the first parse failure. -/
def parseChunks : List AIMessage → Except ChainError (List String)
  | [] => .ok []
  | c :: rest => (parser c).bind fun s => (parseChunks rest).map fun ss => s :: ss

/-- Modelled from the spec: `stream` renders once, obtains the chunk
sequence from the model, and passes each chunk independently through the
parser in arrival order. -/
def chain_stream (ms : StreamFn) (input : List (String × PyVal)) :
    Except ChainError (List String) :=
  (renderPrompt input).bind fun msgs =>
    (ms msgs).bind fun chunks => parseChunks chunks

/-- Modelled from the spec: `batch` maps `invoke` over each input, returning
outputs in input order. -/
def chain_batch (m : ModelFn) (inputs : List (List (String × PyVal))) :
    List (Except ChainError String) :=
  inputs.map (chain_invoke m)

/-- Whether a field of the input mapping is present with a string value. -/
def strFieldPresent (input : List (String × PyVal)) (field : String) : Bool :=
  match lookupVar input field with
  | some (.str _) => true
  | _ => false

/-- Modelled from the spec: `add_routes` validates the decoded request body
against the pipeline's declared input shape (`language : str`, `text : str`)
before any stage runs; absence or wrong type is a validation failure. -/
def validate_input (input : List (String × PyVal)) : Except String (String × String) :=
  match lookupVar input "language", lookupVar input "text" with
  | some (.str lang), some (.str txt) => .ok (lang, txt)
  | _, _ => .error "request body does not match the declared input shape"

/-- The status class of an HTTP response. -/
inductive HTTPStatus where
  | ok
  | clientError
  | serverError
  deriving DecidableEq, Repr

/-- An HTTP response of the generated API surface. -/
structure HTTPResponse where
  status : HTTPStatus
  body : String
  deriving DecidableEq, Repr

/-- The error kind named in a server-error payload. -/
def errorKindName : ChainError → String
  | .templateError _ => "TemplateError"
  | .remoteServiceError _ => "RemoteServiceError"
  | .timeoutError _ => "TimeoutError"
  | .parseError _ => "ParseError"

/-- Modelled from the spec: the `/invoke` route handler generated by
`add_routes` — validation failure yields a client-error response before the
pipeline runs; a stage error maps to a server-error response naming the
error kind; success returns the parsed output. -/
def handle_invoke (m : ModelFn) (input : List (String × PyVal)) : HTTPResponse :=
  match validate_input input with
  | .error msg => HTTPResponse.mk .clientError msg
  | .ok _ =>
      match chain_invoke m input with
      | .ok out => HTTPResponse.mk .ok out
      | .error e => HTTPResponse.mk .serverError (errorKindName e)

/-- Collect the substitution-field names of a template, in order (how the
prompt template derives its input variables from the message templates). -/
def templateVarsAux : List Char → Option String → List String
  | [], _ => []
  | c :: rest, none =>
      if c = '\x7b' then templateVarsAux rest (some "")
      else templateVarsAux rest none
  | c :: rest, some name =>
      if c = '\x7d' then name :: templateVarsAux rest none
      else templateVarsAux rest (some (name.push c))

/-- The input variables of the composed chain, derived from its prompt
templates. -/
def input_variables : List String :=
  (prompt_template_messages.map (fun p => templateVarsAux p.2.data none)).flatten

/-- A named, primitively typed field of a schema. -/
structure FieldSchema where
  name : String
  type : String
  deriving DecidableEq, Repr

/-- The static description of the pipeline's input and output shapes. -/
structure PipelineDescriptor where
  input_fields : List FieldSchema
  output_type : String
  deriving DecidableEq, Repr

/-- Modelled from the spec: `describe()` statically reports the expected
input and output shapes without performing any stage execution.  The `call`
argument is the index of the call in the process lifetime; the descriptor is
derived from the immutable chain alone. -/
def describe (call : Nat) : PipelineDescriptor :=
  let _ := call
  PipelineDescriptor.mk (input_variables.map (fun v => FieldSchema.mk v "string")) "string"

/-- Serialize a descriptor to its schema text (byte-level comparison). -/
def schemaBytes (d : PipelineDescriptor) : String :=
  String.join (d.input_fields.map (fun f => f.name ++ ":" ++ f.type ++ ";")) ++
    "->" ++ d.output_type

/-- The connection parameters of the `ChatDatabricks` client. -/
structure ChatDatabricks where
  endpoint : String
  temperature : ℚ
  deriving DecidableEq, Repr

/-- `model = ChatDatabricks(endpoint=..., temperature=0.0)`, source line 13. -/
def model : ChatDatabricks :=
  ChatDatabricks.mk "databricks-meta-llama-3-3-70b-instruct" 0

/-- The invocation mode of an outbound remote call. -/
inductive InvocationMode where
  | invoke
  | stream
  | batch
  deriving DecidableEq, Repr

/-- The wire-level configuration of one outbound call to the remote
completion service. -/
structure RemoteRequest where
  endpoint : String
  temperature : ℚ
  messages : List Message
  streaming : Bool
  deriving DecidableEq, Repr

/-- Modelled from the spec: in every invocation mode the Model Invoker
configures each outbound call with the client's fixed endpoint identifier
and its fixed decoding temperature. -/
def outboundRequest (c : ChatDatabricks) (mode : InvocationMode) (msgs : List Message) :
    RemoteRequest :=
  RemoteRequest.mk c.endpoint c.temperature msgs (mode = InvocationMode.stream)

/-- State-passing form of stage 1: `str.format` only reads the input
mapping, so the stage returns the mapping it was given. -/
def renderPromptSt (input : List (String × PyVal)) :
    Except ChainError (List Message) × List (String × PyVal) :=
  (renderPrompt input, input)

/-- Modelled from the spec: state-passing form of `invoke`, making the
pipeline input visible after the run — no stage writes to the caller's
input mapping. -/
def chain_invoke_st (m : ModelFn) (input : List (String × PyVal)) :
    Except ChainError String × List (String × PyVal) :=
  match renderPromptSt input with
  | (.error e, env) => (.error e, env)
  | (.ok msgs, env) => ((m msgs).bind parser, env)

/-- A fake remote model replying with a fixed string, used to instantiate
the abstract Model Invoker on concrete runs. -/
def constModel (reply : String) : ModelFn :=
  fun _ => .ok (AIMessage.mk (.str reply))

/-- A fake remote model that fails with a fixed stage error. -/
def failModel (e : ChainError) : ModelFn :=
  fun _ => .error e

/-- A fake streaming remote model yielding a fixed chunk sequence. -/
def constStream (texts : List String) : StreamFn :=
  fun _ => .ok (texts.map (fun s => AIMessage.mk (.str s)))

/-- The spec's end-to-end scenario input. -/
def frInput : List (String × PyVal) :=
  [("language", PyVal.str "French"), ("text", PyVal.str "Hello, how are you?")]

/-- A second input with a different target language. -/
def deInput : List (String × PyVal) :=
  [("language", PyVal.str "German"), ("text", PyVal.str "Hello, how are you?")]

/-- The scenario input extended with an extra, uninterpolated key. -/
def frInputExtra : List (String × PyVal) :=
  frInput ++ [("session", PyVal.int 7)]

/-- The message sequence the scenario input renders to. -/
def frMessages : List Message :=
  [Message.mk "system"
    "You are an assistant that translates text. Translate the user text into French.",
   Message.mk "user" "Hello, how are you?"]

/-! ## Helper lemmas -/

/-- Unfolding `chain_invoke` into the three-stage bind chain. -/
theorem chain_invoke_bind (m : ModelFn) (input : List (String × PyVal)) :
    chain_invoke m input = (renderPrompt input).bind fun msgs => (m msgs).bind parser := by
  cases h : renderPrompt input <;>
    simp [chain_invoke, chain, rseq, h, Except.bind]

/-- Parsing a chunk list whose contents are the given strings succeeds and
returns exactly those strings. -/
theorem parseChunks_map_str (texts : List String) :
    parseChunks (texts.map (fun s => AIMessage.mk (.str s))) = .ok texts := by
  induction texts with
  | nil => rfl
  | cons t rest ih => simp [parseChunks, parser, ih, Except.bind, Except.map]

/-- The formatting scanner only consults the input mapping at the field
names of the template: two mappings agreeing there format identically. -/
theorem pyFormatAux_congr (v1 v2 : List (String × PyVal)) (cs : List Char) :
    ∀ (mode : Option String) (cur : String),
      (∀ name ∈ templateVarsAux cs mode, lookupVar v1 name = lookupVar v2 name) →
      pyFormatAux v1 cs mode cur = pyFormatAux v2 cs mode cur := by
  induction cs with
  | nil => intro mode cur _; cases mode <;> rfl
  | cons c rest ih =>
      intro mode cur h
      cases mode with
      | none =>
          by_cases hc : c = '\x7b'
          · subst hc
            simp only [templateVarsAux, if_pos rfl] at h
            simp only [pyFormatAux, if_pos rfl]
            exact ih (some "") cur h
          · simp only [templateVarsAux, if_neg hc] at h
            simp only [pyFormatAux, if_neg hc]
            exact ih none (cur.push c) h
      | some name =>
          by_cases hc : c = '\x7d'
          · subst hc
            simp only [templateVarsAux, if_pos rfl] at h
            have hname := h name (List.mem_cons_self _ _)
            have hrest : ∀ nm ∈ templateVarsAux rest none,
                lookupVar v1 nm = lookupVar v2 nm :=
              fun nm hm => h nm (List.mem_cons_of_mem _ hm)
            simp only [pyFormatAux, if_pos rfl, if_true, hname]
            cases lookupVar v2 name with
            | none => rfl
            | some v => rw [ih none "" hrest]
          · simp only [templateVarsAux, if_neg hc] at h
            simp only [pyFormatAux, if_neg hc]
            exact ih (some (name.push c)) cur h

/-- The rendered message sequence depends only on the `language` and `text`
entries of the input mapping. -/
theorem renderPrompt_congr (i1 i2 : List (String × PyVal))
    (hl : lookupVar i1 "language" = lookupVar i2 "language")
    (ht : lookupVar i1 "text" = lookupVar i2 "text") :
    renderPrompt i1 = renderPrompt i2 := by
  have hsysvars : templateVarsAux system_template.data none = ["language"] := by decide
  have husrvars : templateVarsAux "{text}".data none = ["text"] := by decide
  have hsys : ∀ nm ∈ templateVarsAux system_template.data none,
      lookupVar i1 nm = lookupVar i2 nm := by
    rw [hsysvars]; intro nm hm
    rcases List.mem_singleton.mp hm with rfl; exact hl
  have husr : ∀ nm ∈ templateVarsAux "{text}".data none,
      lookupVar i1 nm = lookupVar i2 nm := by
    rw [husrvars]; intro nm hm
    rcases List.mem_singleton.mp hm with rfl; exact ht
  simp only [renderPrompt, renderMessages, prompt_template_messages, formatStr]
  rw [pyFormatAux_congr i1 i2 system_template.data none "" hsys,
      pyFormatAux_congr i1 i2 "{text}".data none "" husr]

/-- Closed form of the renderer on an input carrying string `language` and
`text` fields. -/
theorem renderPrompt_fields (input : List (String × PyVal)) (lang txt : String)
    (hl : lookupVar input "language" = some (.str lang))
    (ht : lookupVar input "text" = some (.str txt)) :
    renderPrompt input =
      .ok [Message.mk "system"
            ("You are an assistant that translates text. Translate the user text into " ++
              lang ++ "."),
           Message.mk "user" txt] := by
  have hcongr := renderPrompt_congr input
      [("language", PyVal.str lang), ("text", PyVal.str txt)]
      (by simp [lookupVar, hl]) (by simp [lookupVar, ht])
  rw [hcongr]
  have hconc : renderPrompt [("language", PyVal.str lang), ("text", PyVal.str txt)] =
      .ok [Message.mk "system"
            (String.join
              ["You are an assistant that translates text. Translate the user text into ",
               lang, "."]),
           Message.mk "user" (String.join ["", txt, ""])] := rfl
  rw [hconc]
  simp [String.join, String.append_assoc]

/-! ## Claim theorems -/

/-- C1: `invoke` runs the three stages sequentially, each stage's output
feeding the next stage's input — `invoke(input) = parse(model(render(input)))`
— and succeeds with `out` exactly when render, model call and parse succeed
in that order with `out` the final parsed string. -/
theorem invoke_composes_stages (m : ModelFn) (input : List (String × PyVal)) :
    chain_invoke m input = (renderPrompt input).bind (fun msgs => (m msgs).bind parser) ∧
    ∀ out : String,
      (chain_invoke m input = .ok out ↔
        ∃ msgs resp, renderPrompt input = .ok msgs ∧ m msgs = .ok resp ∧
          parser resp = .ok out) := by
  refine ⟨chain_invoke_bind m input, fun out => ?_⟩
  rw [chain_invoke_bind]
  cases hr : renderPrompt input with
  | error e => simp [Except.bind]
  | ok msgs =>
      cases hm : m msgs with
      | error e => simp [Except.bind, hm]
      | ok resp => simp [Except.bind, hm]

/-- Witness for C1 at the scenario input with a stub remote model. -/
theorem invoke_composes_stages_witness :
    chain_invoke (constModel "Bonjour") frInput = .ok "Bonjour" :=
  ((invoke_composes_stages (constModel "Bonjour") frInput).2 "Bonjour").mpr
    ⟨frMessages, AIMessage.mk (.str "Bonjour"), rfl, rfl, rfl⟩

/-- C2: on an input carrying string `language` and `text` fields, the
renderer produces exactly one system message — the fixed template with the
language value substituted — followed by one user message holding the
literal text. -/
theorem prompt_renders_two_messages (input : List (String × PyVal)) (lang txt : String)
    (hl : lookupVar input "language" = some (.str lang))
    (ht : lookupVar input "text" = some (.str txt)) :
    renderPrompt input =
      .ok [Message.mk "system"
            ("You are an assistant that translates text. Translate the user text into " ++
              lang ++ "."),
           Message.mk "user" txt] :=
  renderPrompt_fields input lang txt hl ht

/-- Witness for C2: the spec's end-to-end scenario rendering. -/
theorem prompt_renders_two_messages_witness :
    lookupVar frInput "language" = some (PyVal.str "French") ∧
    lookupVar frInput "text" = some (PyVal.str "Hello, how are you?") ∧
    renderPrompt frInput = .ok frMessages :=
  ⟨rfl, rfl,
    (prompt_renders_two_messages frInput "French" "Hello, how are you?" rfl rfl).trans rfl⟩

/-- C3: when the remote model's streamed chunks concatenate to its
synchronous response, the fragments yielded by `stream` concatenate to
exactly the string `invoke` returns on the same input. -/
theorem stream_concat_matches_invoke (mi : ModelFn) (ms : StreamFn)
    (input : List (String × PyVal)) (msgs : List Message) (texts : List String)
    (hr : renderPrompt input = .ok msgs)
    (hs : ms msgs = .ok (texts.map (fun s => AIMessage.mk (.str s))))
    (hi : mi msgs = .ok (AIMessage.mk (.str (String.join texts)))) :
    chain_stream ms input = .ok texts ∧
    chain_invoke mi input = .ok (String.join texts) := by
  constructor
  · simp [chain_stream, hr, hs, Except.bind, parseChunks_map_str]
  · rw [chain_invoke_bind, hr]
    simp [Except.bind, hi, parser]

/-- Witness for C3 with a stub model streaming two fragments. -/
theorem stream_concat_matches_invoke_witness :
    chain_stream (constStream ["Bon", "jour"]) frInput = .ok ["Bon", "jour"] ∧
    chain_invoke (constModel "Bonjour") frInput = .ok "Bonjour" := by
  have h := stream_concat_matches_invoke (constModel "Bonjour")
    (constStream ["Bon", "jour"]) frInput frMessages ["Bon", "jour"] rfl rfl rfl
  exact ⟨h.1, h.2.trans rfl⟩

/-- C4: `batch` returns as many outputs as inputs, and the k-th output is
exactly `invoke` run in isolation on the k-th input — order preserved, no
cross-contamination. -/
theorem batch_maps_invoke_in_order (m : ModelFn) (inputs : List (List (String × PyVal))) :
    (chain_batch m inputs).length = inputs.length ∧
    ∀ k : Nat, (chain_batch m inputs)[k]? = (inputs[k]?).map (chain_invoke m) := by
  refine ⟨by simp [chain_batch], fun k => ?_⟩
  simp [chain_batch]

/-- Witness for C4 on a two-element batch. -/
theorem batch_maps_invoke_in_order_witness :
    (chain_batch (constModel "out") [frInput, deInput]).length = 2 ∧
    (chain_batch (constModel "out") [frInput, deInput])[1]? =
      some (chain_invoke (constModel "out") deInput) := by
  have h := batch_maps_invoke_in_order (constModel "out") [frInput, deInput]
  exact ⟨h.1, (h.2 1).trans rfl⟩

/-- C5: the composed pipeline fails with error `e` exactly when one of its
stages fails with `e` — the originating error kind propagates unchanged, no
new kinds are introduced, and a render failure aborts the run before the
model is ever consulted. -/
theorem stage_errors_propagate_unchanged (m : ModelFn) (input : List (String × PyVal))
    (e : ChainError) :
    (chain_invoke m input = .error e ↔
      renderPrompt input = .error e ∨
      (∃ msgs, renderPrompt input = .ok msgs ∧ m msgs = .error e) ∨
      (∃ msgs resp, renderPrompt input = .ok msgs ∧ m msgs = .ok resp ∧
        parser resp = .error e)) ∧
    (renderPrompt input = .error e → ∀ m2 : ModelFn, chain_invoke m2 input = .error e) := by
  constructor
  · rw [chain_invoke_bind]
    cases hr : renderPrompt input with
    | error e2 => simp [Except.bind]
    | ok msgs =>
        cases hm : m msgs with
        | error e2 => simp [Except.bind, hm]
        | ok resp => simp [Except.bind, hm]
  · intro hr m2
    rw [chain_invoke_bind, hr]
    rfl

/-- Witness for C5: a simulated connection failure of the remote service
propagates as the same `RemoteServiceError`. -/
theorem stage_errors_propagate_unchanged_witness :
    chain_invoke (failModel (ChainError.remoteServiceError "connection refused")) frInput =
      .error (ChainError.remoteServiceError "connection refused") :=
  ((stage_errors_propagate_unchanged
      (failModel (ChainError.remoteServiceError "connection refused")) frInput
      (ChainError.remoteServiceError "connection refused")).1).mpr
    (Or.inr (Or.inl ⟨frMessages, rfl, rfl⟩))

/-- C6: a request body whose `text` or `language` field is missing or not a
string is rejected by the route layer with a client-error response, and the
pipeline (in particular the remote model) is never consulted. -/
theorem missing_field_yields_client_error (m : ModelFn) (body : List (String × PyVal))
    (h : strFieldPresent body "text" = false ∨ strFieldPresent body "language" = false) :
    (handle_invoke m body).status = HTTPStatus.clientError ∧
    ∀ m2 : ModelFn, handle_invoke m2 body = handle_invoke m body := by
  have hv : ∀ p : String × String, validate_input body ≠ .ok p := by
    intro p hp
    unfold validate_input at hp
    unfold strFieldPresent at h
    cases hl : lookupVar body "language" with
    | none => simp [hl] at hp
    | some v =>
        cases v with
        | str langv =>
            cases ht : lookupVar body "text" with
            | none => simp [hl, ht] at hp
            | some w =>
                cases w with
                | str txtv => simp [hl, ht] at h
                | int n => simp [hl, ht] at hp
                | null => simp [hl, ht] at hp
        | int n => simp [hl] at hp
        | null => simp [hl] at hp
  cases hvv : validate_input body with
  | ok p => exact absurd hvv (hv p)
  | error msg =>
      exact ⟨by simp [handle_invoke, hvv], fun m2 => by simp [handle_invoke, hvv]⟩

/-- Witness for C6: a body missing `text` gets a client-error response. -/
theorem missing_field_yields_client_error_witness :
    strFieldPresent [("language", PyVal.str "French")] "text" = false ∧
    (handle_invoke (constModel "out") [("language", PyVal.str "French")]).status =
      HTTPStatus.clientError :=
  ⟨rfl,
    (missing_field_yields_client_error (constModel "out")
      [("language", PyVal.str "French")] (Or.inl rfl)).1⟩

/-- C7: on an input carrying string `language` and `text` fields, rendering
succeeds and `invoke` returns a value of string type whenever the model
replies with text; the state-passing form of the run leaves the caller's
input mapping unchanged while computing the same result. -/
theorem invoke_returns_string_and_preserves_input (m : ModelFn)
    (input : List (String × PyVal)) (lang txt : String)
    (hl : lookupVar input "language" = some (.str lang))
    (ht : lookupVar input "text" = some (.str txt)) :
    (∃ msgs, renderPrompt input = .ok msgs ∧
      ∀ s : String, m msgs = .ok (AIMessage.mk (.str s)) → chain_invoke m input = .ok s) ∧
    (chain_invoke_st m input).2 = input ∧
    (chain_invoke_st m input).1 = chain_invoke m input := by
  have hr := renderPrompt_fields input lang txt hl ht
  refine ⟨⟨_, hr, fun s hm => ?_⟩, ?_, ?_⟩
  · rw [chain_invoke_bind, hr]
    simp [Except.bind, hm, parser]
  · cases hre : renderPrompt input <;>
      simp [chain_invoke_st, renderPromptSt, hre]
  · cases hre : renderPrompt input <;>
      rw [chain_invoke_bind, hre] <;>
      simp [chain_invoke_st, renderPromptSt, hre, Except.bind]

/-- Witness for C7 at the scenario input with a stub remote model. -/
theorem invoke_returns_string_and_preserves_input_witness :
    chain_invoke (constModel "Bonjour") frInput = .ok "Bonjour" ∧
    (chain_invoke_st (constModel "Bonjour") frInput).2 = frInput := by
  obtain ⟨⟨msgs, hr, hstr⟩, hst, _⟩ :=
    invoke_returns_string_and_preserves_input (constModel "Bonjour") frInput
      "French" "Hello, how are you?" rfl rfl
  exact ⟨hstr "Bonjour" rfl, hst⟩

/-- C8: every outbound call to the remote completion service, in every
invocation mode and for every message sequence, is configured with decoding
temperature exactly 0 and the fixed endpoint identifier of the
`ChatDatabricks` client constructed in the source. -/
theorem remote_calls_use_fixed_params (mode : InvocationMode) (msgs : List Message) :
    (outboundRequest model mode msgs).temperature = 0 ∧
    (outboundRequest model mode msgs).endpoint =
      "databricks-meta-llama-3-3-70b-instruct" ∧
    model.temperature = 0 ∧
    model.endpoint = "databricks-meta-llama-3-3-70b-instruct" :=
  ⟨rfl, rfl, rfl, rfl⟩

/-- Witness for C8 at a concrete synchronous call. -/
theorem remote_calls_use_fixed_params_witness :
    (outboundRequest model InvocationMode.invoke frMessages).temperature = 0 ∧
    (outboundRequest model InvocationMode.invoke frMessages).endpoint =
      "databricks-meta-llama-3-3-70b-instruct" :=
  ⟨(remote_calls_use_fixed_params InvocationMode.invoke frMessages).1,
   (remote_calls_use_fixed_params InvocationMode.invoke frMessages).2.1⟩

/-- C9: `describe` is idempotent and deterministic — any two calls in the
process lifetime yield the same descriptor and byte-identical serialized
schema output. -/
theorem describe_is_idempotent (i j : Nat) :
    describe i = describe j ∧ schemaBytes (describe i) = schemaBytes (describe j) :=
  ⟨rfl, rfl⟩

/-- Witness for C9 at two distinct call indices. -/
theorem describe_is_idempotent_witness :
    describe 0 = describe 1 ∧ schemaBytes (describe 0) = schemaBytes (describe 1) :=
  describe_is_idempotent 0 1

/-- C10: the rendered message sequence depends only on the `language` and
`text` entries of the input mapping — two inputs agreeing there render
identically, so extra keys are ignored, neither rejected nor
interpolated. -/
theorem render_ignores_extra_keys (i1 i2 : List (String × PyVal))
    (hl : lookupVar i1 "language" = lookupVar i2 "language")
    (ht : lookupVar i1 "text" = lookupVar i2 "text") :
    renderPrompt i1 = renderPrompt i2 :=
  renderPrompt_congr i1 i2 hl ht

/-- Witness for C10: adding an extra key leaves the rendering unchanged. -/
theorem render_ignores_extra_keys_witness :
    lookupVar frInputExtra "language" = lookupVar frInput "language" ∧
    lookupVar frInputExtra "text" = lookupVar frInput "text" ∧
    renderPrompt frInputExtra = renderPrompt frInput :=
  ⟨rfl, rfl, render_ignores_extra_keys frInputExtra frInput rfl rfl⟩

end ServeSimpleLLM
